import Mathlib

/-!
Shallow embedding of the reddit-worker repository's core algorithms,
translated from the JavaScript source:

* `src/reddit/fetcher.js` (`RedditFetcher`): comment-tree flattening
  (`flattenComments`), post extraction (`extractPostData`), cutoff-bounded
  pagination (`fetchPosts`), comment counting (`countComments`);
* `src/reddit/client.js` (`RedditClient.makeRequest`): retry loop with
  auth / rate-limit / backoff classification;
* `src/ingestion/vectordb.js` (`VectorDBIngestion`): document transformation
  (`transformPostToVectorFormat`, `transformCommentsToVectorFormat`) and
  batched ingestion (`ingestItem`, `ingestPosts`);
* `src/server/jobManager.js` (`JobManager`): job finalization (`startJob`
  tail) and `deleteJob`.

Modelling conventions: JavaScript strings are `String`; `x || y` on strings
becomes `if x = "" then y else x` (the empty string is the only falsy string);
a nullable value whose only use is a truthiness test is modelled the same way
or with `Option`; timestamps stay as epoch seconds (`Nat`) — ISO rendering is
orthogonal to every claim; floating-point fields (`upvote_ratio`) are omitted;
network I/O is modelled by a response oracle indexed by the call number, and
side effects that the claims mention (which documents were sent, which
auth/rate-limit/sleep calls happened) are threaded explicitly as logs.
-/

namespace RedditWorker

/-! ## Raw Reddit comment listings (input of `flattenComments`) -/

/-- One child of a Reddit comment `Listing`: a `t1` comment (with its own
nested listing of replies, here already projected to the list of children;
the JS code treats a non-object `replies` field as the empty listing) or a
`more` placeholder. -/
inductive RawChild where
  | t1 (id author body : String) (score : Int) (created_utc : Nat)
       (permalink parent_id : String) (replies : List RawChild)
  | more (count : Nat)
  deriving Repr

/-- Output node of `flattenComments`: the comment object built in
`fetcher.js` lines 49–59, with its (recursively filtered) replies. -/
structure Comment where
  id : String
  author : String
  body : String
  score : Int
  created_utc : Nat
  depth : Nat
  permalink : String
  parent_id : String
  replies : List Comment
  deriving Repr

/-- The deleted/removed test of `fetcher.js` line 45. -/
def isDeletedComment (author body : String) : Bool :=
  author == "[deleted]" || body == "[deleted]" || body == "[removed]"

mutual
/-- `RedditFetcher.flattenComments` (`fetcher.js` lines 33–75), with the
listing already projected to its children. A deleted/removed comment hits
`continue`: neither it nor anything reached through its `replies` field is
emitted. A `more` node is skipped. -/
def flattenComments (children : List RawChild) (depth : Nat) : List Comment :=
  match children with
  | [] => []
  | c :: rest => flattenChild c depth ++ flattenComments rest depth

/-- Processing of a single loop iteration of `flattenComments`. -/
def flattenChild (c : RawChild) (depth : Nat) : List Comment :=
  match c with
  | .t1 id author body score created_utc permalink parent_id replies =>
    if isDeletedComment author body then []
    else [{ id := id, author := author, body := body, score := score,
            created_utc := created_utc, depth := depth, permalink := permalink,
            parent_id := parent_id,
            replies := flattenComments replies (depth + 1) }]
  | .more _ => []
end

theorem sizeOf_replies_lt (c : Comment) : sizeOf c.replies < sizeOf c := by
  cases c
  simp

/-- `RedditFetcher.countComments` (`fetcher.js` lines 210–218). -/
def countComments (comments : List Comment) : Nat :=
  match comments with
  | [] => 0
  | c :: rest =>
    1 + (if c.replies.length > 0 then countComments c.replies else 0)
      + countComments rest
decreasing_by
  all_goals simp_wf
  all_goals have h := sizeOf_replies_lt c
  all_goals omega

/-- All comment ids occurring anywhere in a flattened comment forest,
in depth-first order. -/
def emittedIds (comments : List Comment) : List String :=
  match comments with
  | [] => []
  | c :: rest => c.id :: (emittedIds c.replies ++ emittedIds rest)
decreasing_by
  all_goals simp_wf
  all_goals have h := sizeOf_replies_lt c
  all_goals omega

/-! ## Posts and the fetched-post records (`fetcher.js`) -/

/-- The `data` of a `t3` feed child, restricted to the fields the embedded
code reads (`upvote_ratio` is floating point and is omitted; `all_awardings`
is projected to its length, `link_flair_text` to a string with `""` for a
missing value, both as `extractPostData` does). -/
structure RawPost where
  id : String
  title : String
  author : String
  selftext : String
  permalink : String
  created_utc : Nat
  score : Int
  num_comments : Nat
  awards : Nat
  flair : String
  is_self : Bool
  domain : String
  deriving Repr, DecidableEq

/-- The post object built in `extractPostData` (`fetcher.js` lines 84–98). -/
structure Post where
  id : String
  title : String
  author : String
  content : String
  url : String
  created_utc : Nat
  score : Int
  num_comments : Nat
  awards : Nat
  flair : String
  is_self : Bool
  domain : String
  deriving Repr, DecidableEq

/-- The pure part of `extractPostData`: `post.selftext || ''` is the
identity here because a missing selftext is already modelled as `""`. -/
def extractPost (p : RawPost) : Post :=
  { id := p.id, title := p.title, author := p.author,
    content := p.selftext,
    url := "https://reddit.com" ++ p.permalink,
    created_utc := p.created_utc, score := p.score,
    num_comments := p.num_comments, awards := p.awards,
    flair := p.flair, is_self := p.is_self, domain := p.domain }

/-- `RedditFetcher.extractPostData` (`fetcher.js` lines 80–119): builds the
post object and fetches + flattens the comment listing. `commentsOf` is the
comment-endpoint oracle: `some children` models a response array whose
second element is a `Listing` with those children, `none` models a failed
fetch or a short array — both leave `comments = []`. -/
def extractPostData (commentsOf : String → Option (List RawChild))
    (p : RawPost) : Post × List Comment :=
  (extractPost p,
   match commentsOf p.id with
   | some children => flattenComments children 0
   | none => [])

/-- The record pushed onto `posts` in `fetchPosts` (`fetcher.js` lines
166–177); the wall-clock `metadata` fields are omitted. -/
structure FetchedPost where
  id : String
  source : String
  subreddit : String
  post : Post
  comments : List Comment
  deriving Repr

/-! ## Document transformation (`vectordb.js` lines 21–90) -/

/-- A document in Vector DB format. `timestamp` keeps the epoch seconds fed
to `new Date(... * 1000).toISOString()`; the root item carries a `comments`
count, comment items do not. -/
structure VectorItem where
  platform : String
  source : String
  id : String
  timestamp : Nat
  deeplink : String
  author : String
  title : String
  body : String
  isComment : Bool
  comments : Option Nat
  likes : Int
  deriving Repr, DecidableEq

/-- The document id chosen in `vectordb.js` line 65:
`parentCommentId ? `${postId}_${comment.id}` : comment.id`. The JS
`parentCommentId` is `null` for the top level and a comment id below; both
`null` and the empty string are falsy, so `""` models `null`. -/
def commentDocId (postId parentCommentId commentId : String) : String :=
  if parentCommentId ≠ "" then postId ++ "_" ++ commentId else commentId

/-- The comment document built in `vectordb.js` lines 62–73. -/
def mkCommentDoc (subreddit postId : String) (q : Comment × String) :
    VectorItem :=
  { platform := subreddit, source := "Reddit",
    id := commentDocId postId q.2 q.1.id,
    timestamp := q.1.created_utc,
    deeplink := "https://reddit.com" ++ q.1.permalink,
    author := q.1.author, title := "", body := q.1.body,
    isComment := true, comments := none, likes := q.1.score }

/-- `VectorDBIngestion.transformCommentsToVectorFormat` (`vectordb.js`
lines 58–90). -/
def transformCommentsToVectorFormat (comments : List Comment)
    (postId subreddit parentCommentId : String) : List VectorItem :=
  match comments with
  | [] => []
  | comment :: rest =>
    mkCommentDoc subreddit postId (comment, parentCommentId)
      :: ((if comment.replies.length > 0 then
            transformCommentsToVectorFormat comment.replies postId subreddit
              comment.id
          else [])
        ++ transformCommentsToVectorFormat rest postId subreddit
             parentCommentId)
termination_by sizeOf comments
decreasing_by
  all_goals simp_wf
  all_goals have h := sizeOf_replies_lt c
  all_goals omega

/-- The root document built in `vectordb.js` lines 26–38. `platformName ||
subreddit` and `post.content || post.title` are the JS string fallbacks. -/
def mkPostDoc (redditPost : FetchedPost) (platformName : String) :
    VectorItem :=
  { platform := if platformName ≠ "" then platformName
                else redditPost.subreddit,
    source := "Reddit", id := redditPost.post.id,
    timestamp := redditPost.post.created_utc,
    deeplink := redditPost.post.url,
    author := redditPost.post.author, title := redditPost.post.title,
    body := if redditPost.post.content ≠ "" then redditPost.post.content
            else redditPost.post.title,
    isComment := false, comments := some redditPost.post.num_comments,
    likes := redditPost.post.score }

/-- `VectorDBIngestion.transformPostToVectorFormat` (`vectordb.js` lines
21–53). -/
def transformPostToVectorFormat (redditPost : FetchedPost)
    (platformName : String) : List VectorItem :=
  let postItem := mkPostDoc redditPost platformName
  if redditPost.comments.length > 0 then
    postItem :: transformCommentsToVectorFormat redditPost.comments
      redditPost.post.id
      (if platformName ≠ "" then platformName else redditPost.subreddit) ""
  else [postItem]

/-- Depth-first (preorder) traversal of a comment forest, pairing every
comment with the `parentCommentId` value the transformation passes for it:
`pcid` at the top level, the parent's id below. -/
def dfsWithParent (pcid : String) (comments : List Comment) :
    List (Comment × String) :=
  match comments with
  | [] => []
  | c :: rest =>
    (c, pcid) :: (dfsWithParent c.id c.replies ++ dfsWithParent pcid rest)
decreasing_by
  all_goals simp_wf
  all_goals have h := sizeOf_replies_lt c
  all_goals omega

/-! ## The Reddit client's retry loop (`client.js` lines 83–136)

Network behaviour is an oracle from the attempt number to the outcome of
that HTTP call; the observable actions of `makeRequest` (invocations of
`ensureAuthenticated` and `waitForRateLimit`, HTTP attempts, `authenticate`
calls on 401, and the sleeps with their millisecond duration) are collected
in an event log. -/

/-- Outcome of one `axios.get` inside `makeRequest`: success, an error
with a response carrying `status` (and for 429 an optional numeric
`retry-after` header, `none` also covering an empty header, which is falsy),
or a network error with no response. -/
inductive RResp where
  | ok
  | httpErr (status : Nat) (retryAfter : Option Nat)
  | netErr
  deriving Repr, DecidableEq

/-- Observable events of `makeRequest`. -/
inductive REv where
  | ensureAuth
  | waitRL
  | attempt
  | reauth
  | sleep (ms : Nat)
  deriving Repr, DecidableEq

/-- The wait computed on a 429 (`client.js` line 108):
`error.response.headers['retry-after'] || Math.pow(2, attempt) * 1000`,
then passed to `setTimeout` as MILLISECONDS. A present header contributes
its raw numeric value; the fallback is `2^attempt * 1000`. -/
def retryWait429 (retryAfter : Option Nat) (attempt : Nat) : Nat :=
  match retryAfter with
  | some v => v
  | none => 2 ^ attempt * 1000

/-- The `for (let attempt = 0; attempt < retries; attempt++)` loop of
`makeRequest`; `remaining = retries - attempt` is the loop fuel and
`callIdx` numbers the HTTP calls for the oracle. Returns the result and the
events the loop produces, in order. -/
def makeRequestGo (oracle : Nat → RResp) :
    Nat → Nat → Nat → Except String Unit × List REv
  | 0, _, _ => (.error "Max retries exceeded", [])
  | remaining + 1, attempt, callIdx =>
    match oracle callIdx with
    | .ok => (.ok (), [.attempt])
    | .httpErr status retryAfter =>
      if status == 429 then
        let r := makeRequestGo oracle remaining (attempt + 1) (callIdx + 1)
        (r.1, .attempt :: .sleep (retryWait429 retryAfter attempt) :: r.2)
      else if status == 401 then
        let r := makeRequestGo oracle remaining (attempt + 1) (callIdx + 1)
        (r.1, .attempt :: .reauth :: r.2)
      else if 500 ≤ status then
        let r := makeRequestGo oracle remaining (attempt + 1) (callIdx + 1)
        (r.1, .attempt :: .sleep (2 ^ attempt * 1000) :: r.2)
      else (.error "request failed", [.attempt])
    | .netErr => (.error "request failed", [.attempt])

/-- `RedditClient.makeRequest` (`client.js` lines 83–136):
`ensureAuthenticated` and `waitForRateLimit` happen once, before the loop
(lines 84–85). -/
def makeRequest (oracle : Nat → RResp) (retries : Nat) :
    Except String Unit × List REv :=
  let r := makeRequestGo oracle retries 0 0
  (r.1, .ensureAuth :: .waitRL :: r.2)

/-! ## Vector DB ingestion (`vectordb.js` lines 95–224)

The store is an oracle from the number of the HTTP call to its outcome;
the ids of the documents POSTed, in order, are threaded as the `sent` log. -/

/-- Outcome of one `axios.post` to `/ingest`: success, an error with a
response (`status`, plus `error.message` and the response `data` used in
the failure records), or a network error with no response. -/
inductive StoreResp where
  | ok
  | httpErr (status : Nat) (msg data : String)
  | netErr (msg : String)
  deriving Repr, DecidableEq

/-- What `ingestItem` does for one document: return a result object
(success or per-document failure), or throw (`status` 401/403). -/
inductive ItemOutcome where
  | success (id : String)
  | failure (id error : String) (details : Option String)
  | thrown (msg : String)
  deriving Repr, DecidableEq

/-- The auth-failure message thrown at `vectordb.js` line 121. -/
def authFailMsg : String :=
  "Vector DB authentication failed. Check your API token."

/-- The `for (let attempt = 0; ...)` loop of `VectorDBIngestion.ingestItem`
(`vectordb.js` lines 95–158) with `maxRetries = 3` as the initial fuel.
The oracle is consulted at index `sent.length` (the global call number) and
the POSTed document id is appended to `sent`. -/
def ingestItemGo (oracle : Nat → StoreResp) (itemId : String) :
    Nat → List String → ItemOutcome × List String
  | 0, sent => (.failure itemId "Max retries (3) exceeded" none, sent)
  | remaining + 1, sent =>
    let resp := oracle sent.length
    let sent := sent ++ [itemId]
    match resp with
    | .ok => (.success itemId, sent)
    | .httpErr status msg data =>
      if status == 401 || status == 403 then (.thrown authFailMsg, sent)
      else if status == 422 then
        (.failure itemId "Validation error" (some data), sent)
      else if status == 429 || 500 ≤ status then
        ingestItemGo oracle itemId remaining sent
      else (.failure itemId msg none, sent)
    | .netErr msg => (.failure itemId msg none, sent)

/-- The running tally built by `ingestPosts` (`vectordb.js` lines 164–171);
an error record is `(id, error, details)`. -/
structure IngestResults where
  total : Nat
  successful : Nat
  failed : Nat
  posts : Nat
  comments : Nat
  errors : List (String × String × Option String)
  deriving Repr, DecidableEq

def emptyIngestResults : IngestResults := ⟨0, 0, 0, 0, 0, []⟩

/-- The inner `for (const item of items)` loop of `ingestPosts`
(`vectordb.js` lines 184–205). A `thrown` outcome escapes the loop
(to the enclosing `catch`); the third component reports it. -/
def ingestItems (oracle : Nat → StoreResp) :
    List VectorItem → IngestResults → List String →
    IngestResults × List String × Option String
  | [], res, sent => (res, sent, none)
  | item :: rest, res, sent =>
    match ingestItemGo oracle item.id 3 sent with
    | (.success _, sent') =>
      ingestItems oracle rest
        { res with
          successful := res.successful + 1,
          comments := (if item.isComment then res.comments + 1
                       else res.comments),
          posts := (if item.isComment then res.posts else res.posts + 1) }
        sent'
    | (.failure _ err details, sent') =>
      ingestItems oracle rest
        { res with
          failed := res.failed + 1,
          errors := res.errors ++ [(item.id, err, details)] } sent'
    | (.thrown msg, sent') => (res, sent', some msg)

/-- The outer `for (const redditPost of redditPosts)` loop of
`VectorDBIngestion.ingestPosts` (`vectordb.js` lines 175–215). The
`try`/`catch` wraps one post: a throw during that post's items is caught,
recorded as one failure against the post's id, and the loop continues with
the next post. -/
def ingestPostsGo (oracle : Nat → StoreResp) (platformName : String) :
    List FetchedPost → IngestResults → List String →
    IngestResults × List String
  | [], res, sent => (res, sent)
  | redditPost :: rest, res, sent =>
    let items := transformPostToVectorFormat redditPost platformName
    let res := { res with total := res.total + items.length }
    match ingestItems oracle items res sent with
    | (res', sent', none) => ingestPostsGo oracle platformName rest res' sent'
    | (res', sent', some msg) =>
      ingestPostsGo oracle platformName rest
        { res' with
          failed := res'.failed + 1,
          errors := res'.errors ++ [(redditPost.post.id, msg, none)] } sent'

/-- `VectorDBIngestion.ingestPosts`, returning the final tally and the ids
of all documents POSTed to the store, in order. -/
def ingestPosts (oracle : Nat → StoreResp) (redditPosts : List FetchedPost)
    (platformName : String) : IngestResults × List String :=
  ingestPostsGo oracle platformName redditPosts emptyIngestResults []

/-! ## Cutoff-bounded pagination (`fetcher.js` lines 124–205)

The feed is modelled as the list of pages successive `fetchNewPosts` calls
return, each with its `children` and continuation token `after`. -/

/-- One child of a feed page: a `t3` post or anything of another kind
(skipped by the `postData.kind === 't3'` test). -/
inductive PostChild where
  | t3 (p : RawPost)
  | other
  deriving Repr

/-- One page of the "new" feed. -/
structure Page where
  children : List PostChild
  after : Option String
  deriving Repr

/-- The deleted/removed test of `fetcher.js` line 158. -/
def isDeletedPost (p : RawPost) : Bool :=
  p.author == "[deleted]" || p.selftext == "[removed]"

/-- The record pushed in `fetchPosts` lines 166–177. -/
def mkFetchedPost (subreddit : String)
    (pc : Post × List Comment) : FetchedPost :=
  { id := "reddit_post_" ++ pc.1.id, source := "reddit",
    subreddit := subreddit, post := pc.1, comments := pc.2 }

/-- The `for (const postData of data.data.children)` loop of `fetchPosts`
(lines 146–186). Returns the accumulated posts and whether
`beforeReachedCutoff` was set (by the cutoff test or the test-mode cap). -/
def processPageChildren (commentsOf : String → Option (List RawChild))
    (subreddit : String) (cutoffTime : Nat) (testMode : Bool) :
    List PostChild → List FetchedPost → List FetchedPost × Bool
  | [], posts => (posts, false)
  | .other :: rest, posts =>
    processPageChildren commentsOf subreddit cutoffTime testMode rest posts
  | .t3 p :: rest, posts =>
    if p.created_utc < cutoffTime then (posts, true)
    else if isDeletedPost p then
      processPageChildren commentsOf subreddit cutoffTime testMode rest posts
    else if testMode
        && (posts ++ [mkFetchedPost subreddit
              (extractPostData commentsOf p)]).length ≥ 5 then
      (posts ++ [mkFetchedPost subreddit (extractPostData commentsOf p)],
       true)
    else
      processPageChildren commentsOf subreddit cutoffTime testMode rest
        (posts ++ [mkFetchedPost subreddit (extractPostData commentsOf p)])

/-- The `while (!beforeReachedCutoff && posts.length < maxPosts)` loop of
`fetchPosts` (lines 138–196): `maxPosts` is 5 in test mode and `Infinity`
otherwise; an empty `children` array or an absent `after` token ends the
loop, as does the exhaustion of the modelled feed. -/
def fetchPostsGo (commentsOf : String → Option (List RawChild))
    (subreddit : String) (cutoffTime : Nat) (testMode : Bool) :
    List Page → List FetchedPost → List FetchedPost
  | [], posts => posts
  | page :: morePages, posts =>
    if testMode && posts.length ≥ 5 then posts
    else if page.children.isEmpty then posts
    else
      match processPageChildren commentsOf subreddit cutoffTime testMode
              page.children posts with
      | (posts', true) => posts'
      | (posts', false) =>
        match page.after with
        | none => posts'
        | some _ =>
          fetchPostsGo commentsOf subreddit cutoffTime testMode morePages
            posts'

/-- `RedditFetcher.fetchPosts` (lines 124–205), from the computed cutoff
time on. -/
def fetchPosts (commentsOf : String → Option (List RawChild))
    (subreddit : String) (cutoffTime : Nat) (testMode : Bool)
    (pages : List Page) : List FetchedPost :=
  fetchPostsGo commentsOf subreddit cutoffTime testMode pages []

/-! ## The job manager (`jobManager.js`) -/

/-- Per-channel stats reported by a worker's `complete` message. -/
structure ChannelStats where
  posts : Nat
  comments : Nat
  successful : Nat
  failed : Nat
  deriving Repr, DecidableEq

/-- One entry of `job.channels`: `stats` stays `null` unless a `complete`
message arrived. -/
structure Channel where
  subreddit : String
  status : String
  stats : Option ChannelStats
  error : Option String
  deriving Repr, DecidableEq

/-- A job record (`jobManager.js` lines 44–63); the wall-clock timestamp
fields are omitted. -/
structure Job where
  id : Nat
  status : String
  channels : List Channel
  totalStats : ChannelStats
  deriving Repr, DecidableEq

/-- The job object built by `JobManager.createJob` (lines 42–74). -/
def createJob (jobId : Nat) (subreddits : List String) : Job :=
  { id := jobId, status := "pending",
    channels := subreddits.map
      (fun s => { subreddit := s, status := "pending",
                  stats := none, error := none }),
    totalStats := ⟨0, 0, 0, 0⟩ }

/-- The `job.totalStats.x += ch.stats.x` accumulation step of `startJob`
(lines 109–116). -/
def addStats (t s : ChannelStats) : ChannelStats :=
  ⟨t.posts + s.posts, t.comments + s.comments,
   t.successful + s.successful, t.failed + s.failed⟩

/-- The tail of `JobManager.startJob` (lines 104–116): after
`Promise.allSettled` resolves, the job's status is set to `completed` and
`totalStats` is accumulated over every channel that has stats (the
`if (ch.stats)` guard skips channels whose stats are still `null`). -/
def finalizeJob (job : Job) : Job :=
  { job with
    status := "completed",
    totalStats := job.channels.foldl
      (fun acc ch => match ch.stats with
        | some s => addStats acc s
        | none => acc) job.totalStats }

/-- Modelled from the spec: the element-wise sum of every ChannelRun's
stats ("totals are computed by summing each ChannelRun's stats"). -/
def specTotalStats (channels : List Channel) : ChannelStats :=
  { posts := ((channels.filterMap (·.stats)).map (·.posts)).sum,
    comments := ((channels.filterMap (·.stats)).map (·.comments)).sum,
    successful := ((channels.filterMap (·.stats)).map (·.successful)).sum,
    failed := ((channels.filterMap (·.stats)).map (·.failed)).sum }

/-- Events emitted through `notifySubscribers` that the claims mention. -/
inductive JobEvent where
  | job_deleted (jobId : Nat)
  deriving Repr, DecidableEq

/-- The `jobs` map, as an association list keyed by job id (a JS `Map` has
at most one entry per key). -/
def lookupJob (jobs : List (Nat × Job)) (jobId : Nat) : Option Job :=
  (jobs.find? (fun e => e.1 == jobId)).map (·.2)

/-- `JobManager.deleteJob` (`jobManager.js` lines 244–261): unknown id →
`false` with nothing changed; a running job → throw before any mutation;
otherwise remove the entry and notify `job_deleted` once, returning `true`.
The result carries (return value, jobs map afterwards, events emitted). -/
def deleteJob (jobs : List (Nat × Job)) (jobId : Nat) :
    Except String (Bool × List (Nat × Job) × List JobEvent) :=
  match lookupJob jobs jobId with
  | none => .ok (false, jobs, [])
  | some job =>
    if job.status == "running" then .error "Cannot delete a running job"
    else .ok (true, jobs.filter (fun e => e.1 != jobId),
              [.job_deleted jobId])

/-! ## Theorems -/

/-- C1, counterexample: the input forest has one deleted comment `"a"`
whose `replies` listing holds the live comment `"b"`. Flattening the whole
forest yields nothing at all — in particular `"b"` is not emitted — even
though flattening `"a"`'s children alone would emit `"b"`. This refutes the
claim that the children of a removed/deleted node are still emitted. -/
theorem C1_deleted_children_dropped :
    flattenComments
      [RawChild.t1 "a" "[deleted]" "hello" 0 100 "/r/x/a" "t3_p"
        [RawChild.t1 "b" "alice" "hi" 1 101 "/r/x/b" "t1_a" []]] 0 = []
    ∧ emittedIds
        (flattenComments [RawChild.t1 "b" "alice" "hi" 1 101 "/r/x/b" "t1_a" []] 1)
        = ["b"]
    ∧ isDeletedComment "[deleted]" "hello" = true
    ∧ isDeletedComment "alice" "hi" = false := by
  refine ⟨?_, ?_, rfl, rfl⟩
  · simp [flattenComments, flattenChild, isDeletedComment]
  · simp [flattenComments, flattenChild, isDeletedComment, emittedIds]

/-- C1, amended: when `flattenComments` encounters a removed/deleted node,
it skips the node together with its entire subtree — the node's children
are not emitted; the output is exactly that of the remaining siblings. -/
theorem C1_amended_deleted_subtree_skipped
    (id author body : String) (score : Int) (created_utc : Nat)
    (permalink parent_id : String) (replies rest : List RawChild)
    (depth : Nat) (h : isDeletedComment author body = true) :
    flattenComments
        (RawChild.t1 id author body score created_utc permalink parent_id
          replies :: rest) depth
      = flattenComments rest depth := by
  rw [flattenComments, flattenChild, h]
  simp

/-- Witness for `C1_amended_deleted_subtree_skipped` at a concrete tree. -/
theorem C1_amended_witness :
    flattenComments
        (RawChild.t1 "a" "[deleted]" "hello" 0 100 "/r/x/a" "t3_p"
          [RawChild.t1 "b" "alice" "hi" 1 101 "/r/x/b" "t1_a" []] :: []) 0
      = flattenComments [] 0 :=
  C1_amended_deleted_subtree_skipped "a" "[deleted]" "hello" 0 100 "/r/x/a"
    "t3_p" [RawChild.t1 "b" "alice" "hi" 1 101 "/r/x/b" "t1_a" []] [] 0 rfl

/-- The loop of `makeRequest` produces no `ensureAuth` and no `waitRL`
events: those calls sit above the `for` loop in `client.js`. -/
theorem makeRequestGo_no_auth_events (oracle : Nat → RResp) :
    ∀ (r a c : Nat),
      (makeRequestGo oracle r a c).2.count REv.ensureAuth = 0
      ∧ (makeRequestGo oracle r a c).2.count REv.waitRL = 0 := by
  intro r
  induction r with
  | zero => intro a c; simp [makeRequestGo]
  | succ n ih =>
    intro a c
    rw [makeRequestGo]
    cases oracle c with
    | ok => simp
    | httpErr status retryAfter =>
      by_cases h429 : status == 429
      · simp only [h429, if_true]
        have := ih (a + 1) (c + 1)
        simp [List.count_cons, this.1, this.2]
      · by_cases h401 : status == 401
        · simp only [h429, if_false, h401, if_true]
          have := ih (a + 1) (c + 1)
          simp [List.count_cons, this.1, this.2]
        · by_cases h5 : 500 ≤ status
          · simp only [h429, if_false, h401, if_false, h5, if_true]
            have := ih (a + 1) (c + 1)
            simp [List.count_cons, this.1, this.2]
          · simp [h429, h401, h5]
    | netErr => simp

/-- C3, counterexample: an execution in which the first attempt receives a
429 and the retry succeeds. The log shows two HTTP attempts but only one
`ensureAuthenticated` and one `waitForRateLimit` invocation, refuting the
claim that both are invoked before each attempt including retries. -/
theorem C3_auth_ratelimit_not_per_attempt :
    ((makeRequest (fun n => if n == 0 then .httpErr 429 none else .ok) 3).2.count
        REv.attempt = 2)
    ∧ ((makeRequest (fun n => if n == 0 then .httpErr 429 none else .ok) 3).2.count
        REv.ensureAuth = 1)
    ∧ ((makeRequest (fun n => if n == 0 then .httpErr 429 none else .ok) 3).2.count
        REv.waitRL = 1) := by
  refine ⟨?_, ?_, ?_⟩ <;> rfl

/-- C3, amended: `ensureAuthenticated` and `waitForRateLimit` are invoked
exactly once per `makeRequest` call, before the first HTTP attempt; retry
attempts (after 429, 401 or 5xx) are made without invoking them again (a
401 triggers a direct `authenticate()` instead). -/
theorem C3_amended_auth_ratelimit_once (oracle : Nat → RResp) (retries : Nat) :
    ((makeRequest oracle retries).2.count REv.ensureAuth = 1)
    ∧ ((makeRequest oracle retries).2.count REv.waitRL = 1)
    ∧ (makeRequest oracle retries).2.take 2 = [REv.ensureAuth, REv.waitRL] := by
  have h := makeRequestGo_no_auth_events oracle retries 0 0
  refine ⟨?_, ?_, rfl⟩ <;>
    simp [makeRequest, List.count_cons, h.1, h.2]

/-- C4: the code passes the numeric value of the `retry-after` header
directly to `setTimeout`, i.e. it sleeps for that many MILLISECONDS, while
its own exponential-backoff fallback (and the HTTP definition of the
header) is in a different unit: on a 429 with `retry-after: 2` the next
attempt follows a 2 ms sleep, not a ≥ 2000 ms one. -/
theorem C4_retry_after_seconds_slept_as_ms :
    ((makeRequest (fun n => if n == 0 then .httpErr 429 (some 2) else .ok) 3).2
      = [.ensureAuth, .waitRL, .attempt, .sleep 2, .attempt])
    ∧ retryWait429 (some 2) 0 = 2
    ∧ retryWait429 none 0 = 1000
    ∧ (2 : Nat) < 2000 := by
  refine ⟨rfl, rfl, rfl, by decide⟩

/-- A minimal fetched post (no comments) used by concrete ingestion runs. -/
def simpleFetchedPost (pid : String) : FetchedPost :=
  { id := "reddit_post_" ++ pid, source := "reddit", subreddit := "r",
    post := { id := pid, title := "t", author := "u", content := "",
              url := "https://reddit.com/x", created_utc := 0, score := 0,
              num_comments := 0, awards := 0, flair := "", is_self := true,
              domain := "d" },
    comments := [] }

/-- C2, counterexample: the store answers 401 to every call. Ingesting the
two-post batch `[p1, p2]` does NOT abort at the auth failure on `p1`'s
document: `p2`'s document is still POSTed (the sent log is
`["p1", "p2"]`), each auth throw is caught and recorded as a per-post
failure, and `ingestPosts` returns a normal tally instead of surfacing a
fatal run error. -/
theorem C2_auth_error_does_not_abort_batch :
    ingestPosts (fun _ => .httpErr 401 "Request failed with status code 401" "")
        [simpleFetchedPost "p1", simpleFetchedPost "p2"] "plat"
      = ({ total := 2, successful := 0, failed := 2, posts := 0, comments := 0,
           errors := [("p1", authFailMsg, none), ("p2", authFailMsg, none)] },
         ["p1", "p2"]) := by
  rfl

/-- C2, amended: an auth error (401/403) thrown while ingesting a document
aborts only the remaining documents of the CURRENT post — the loop over
that post's items stops, the tally is left as it was, and the error message
is reported to the enclosing catch — and `ingestPosts` then records one
failure against that post's id and continues with the next post; the error
never escapes `ingestPosts`. -/
theorem C2_amended_auth_error_per_post
    (oracle : Nat → StoreResp) (platformName : String) :
    (∀ (item : VectorItem) (rest : List VectorItem) (res : IngestResults)
       (sent sent' : List String) (msg : String),
       ingestItemGo oracle item.id 3 sent = (.thrown msg, sent') →
       ingestItems oracle (item :: rest) res sent = (res, sent', some msg))
    ∧ (∀ (p : FetchedPost) (rest : List FetchedPost) (res res' : IngestResults)
       (sent sent' : List String) (msg : String),
       ingestItems oracle (transformPostToVectorFormat p platformName)
           { res with
             total := res.total
               + (transformPostToVectorFormat p platformName).length } sent
         = (res', sent', some msg) →
       ingestPostsGo oracle platformName (p :: rest) res sent
         = ingestPostsGo oracle platformName rest
             { res' with
               failed := res'.failed + 1,
               errors := res'.errors ++ [(p.post.id, msg, none)] } sent') := by
  constructor
  · intro item rest res sent sent' msg h
    rw [ingestItems, h]
  · intro p rest res res' sent sent' msg h
    simp only [ingestPostsGo]
    rw [h]

/-- Witness for `C2_amended_auth_error_per_post` at a concrete store and
batch. -/
theorem C2_amended_witness :
    (ingestItems (fun _ => .httpErr 403 "forbidden" "")
        (mkPostDoc (simpleFetchedPost "p1") "plat" :: []) emptyIngestResults []
      = (emptyIngestResults, ["p1"], some authFailMsg))
    ∧ (ingestPostsGo (fun _ => .httpErr 403 "forbidden" "") "plat"
          [simpleFetchedPost "p1"] emptyIngestResults []
        = ingestPostsGo (fun _ => .httpErr 403 "forbidden" "") "plat" []
            { ({ total := 1, successful := 0, failed := 0, posts := 0,
                 comments := 0, errors := [] } : IngestResults) with
              failed := 0 + 1,
              errors := [] ++ [("p1", authFailMsg, none)] } ["p1"]) := by
  constructor
  · exact (C2_amended_auth_error_per_post
        (fun _ => .httpErr 403 "forbidden" "") "plat").1
      (mkPostDoc (simpleFetchedPost "p1") "plat") [] emptyIngestResults []
      ["p1"] authFailMsg rfl
  · exact (C2_amended_auth_error_per_post
        (fun _ => .httpErr 403 "forbidden" "") "plat").2
      (simpleFetchedPost "p1") [] emptyIngestResults
      { total := 1, successful := 0, failed := 0, posts := 0, comments := 0,
        errors := [] } [] ["p1"] authFailMsg rfl

theorem addStats_zero (a : ChannelStats) : addStats a ⟨0, 0, 0, 0⟩ = a := by
  cases a; simp [addStats]

theorem addStats_assoc (a b c : ChannelStats) :
    addStats (addStats a b) c = addStats a (addStats b c) := by
  cases a; cases b; cases c
  simp [addStats, Nat.add_assoc]

/-- The `forEach` accumulation of `startJob` equals adding the spec-side
element-wise sum to the initial accumulator. -/
theorem foldl_addStats_eq_spec (channels : List Channel) (acc : ChannelStats) :
    channels.foldl
        (fun acc ch => match ch.stats with
          | some s => addStats acc s
          | none => acc) acc
      = addStats acc (specTotalStats channels) := by
  induction channels generalizing acc with
  | nil => simp [specTotalStats, addStats_zero]
  | cons ch rest ih =>
    cases hs : ch.stats with
    | none =>
      simp only [List.foldl_cons, hs]
      rw [ih]
      simp [specTotalStats, List.filterMap_cons, hs]
    | some s =>
      simp only [List.foldl_cons, hs]
      rw [ih]
      have hspec : specTotalStats (ch :: rest)
          = addStats s (specTotalStats rest) := by
        simp [specTotalStats, List.filterMap_cons, hs, addStats]
      rw [hspec, addStats_assoc]

/-- C8: whatever the settled per-channel outcomes are (any statuses, any
number of failures), the finalization step of `startJob` marks the job
`completed` and sets `totalStats` to the element-wise sum of every
channel's stats; in particular per-channel failed-document counts are
summed, not dropped. The hypothesis is the state `createJob` put
`totalStats` in. -/
theorem C8_job_completed_totals_summed (job : Job)
    (h : job.totalStats = ⟨0, 0, 0, 0⟩) :
    (finalizeJob job).status = "completed"
    ∧ (finalizeJob job).totalStats = specTotalStats job.channels
    ∧ (finalizeJob job).totalStats.failed
        = (((job.channels.filterMap (·.stats)).map (·.failed)).sum) := by
  refine ⟨rfl, ?_, ?_⟩
  · simp only [finalizeJob]
    rw [h, foldl_addStats_eq_spec]
    cases hs : specTotalStats job.channels
    simp [addStats]
  · simp only [finalizeJob]
    rw [h, foldl_addStats_eq_spec]
    simp [addStats, specTotalStats]

/-- Witness for `C8_job_completed_totals_summed`: one completed channel
with stats, one failed channel without. -/
theorem C8_witness :
    (finalizeJob
        { id := 1, status := "running",
          channels :=
            [{ subreddit := "a", status := "completed",
               stats := some ⟨2, 3, 4, 1⟩, error := none },
             { subreddit := "b", status := "failed", stats := none,
               error := some "boom" },
             { subreddit := "c", status := "completed",
               stats := some ⟨1, 1, 0, 2⟩, error := none }],
          totalStats := ⟨0, 0, 0, 0⟩ }).status = "completed"
    ∧ (finalizeJob
        { id := 1, status := "running",
          channels :=
            [{ subreddit := "a", status := "completed",
               stats := some ⟨2, 3, 4, 1⟩, error := none },
             { subreddit := "b", status := "failed", stats := none,
               error := some "boom" },
             { subreddit := "c", status := "completed",
               stats := some ⟨1, 1, 0, 2⟩, error := none }],
          totalStats := ⟨0, 0, 0, 0⟩ }).totalStats = ⟨3, 4, 4, 3⟩ := by
  have h := C8_job_completed_totals_summed
    { id := 1, status := "running",
      channels :=
        [{ subreddit := "a", status := "completed",
           stats := some ⟨2, 3, 4, 1⟩, error := none },
         { subreddit := "b", status := "failed", stats := none,
           error := some "boom" },
         { subreddit := "c", status := "completed",
           stats := some ⟨1, 1, 0, 2⟩, error := none }],
      totalStats := ⟨0, 0, 0, 0⟩ } rfl
  exact ⟨h.1, by rw [h.2.1]; rfl⟩

/-- Removing the looked-up key from a registry with no duplicate keys
removes exactly one entry. -/
theorem filter_ne_length_of_mem (jobs : List (Nat × Job)) (jobId : Nat)
    (hnd : (jobs.map Prod.fst).Nodup)
    (hmem : jobId ∈ jobs.map Prod.fst) :
    (jobs.filter (fun e => e.1 != jobId)).length + 1 = jobs.length := by
  induction jobs with
  | nil => simp at hmem
  | cons e rest ih =>
    simp only [List.map_cons, List.nodup_cons] at hnd
    by_cases he : e.1 = jobId
    · have hall : rest.filter (fun e => e.1 != jobId) = rest := by
        apply List.filter_eq_self.mpr
        intro x hx
        have : x.1 ∈ rest.map Prod.fst := List.mem_map_of_mem Prod.fst hx
        have hne : x.1 ≠ jobId := fun hEq => hnd.1 (he ▸ hEq ▸ this)
        simpa using hne
      simp [List.filter_cons, he, hall]
    · have hmem' : jobId ∈ rest.map Prod.fst := by
        rcases List.mem_cons.mp hmem with h | h
        · exact absurd h.symm he
        · exact h
      have := ih hnd.2 hmem'
      simp only [List.filter_cons]
      have hbne : (e.1 != jobId) = true := by simpa using he
      rw [hbne]
      simp [this]

/-- After filtering a key out, looking it up fails. -/
theorem lookup_filter_self (jobs : List (Nat × Job)) (jobId : Nat) :
    lookupJob (jobs.filter (fun e => e.1 != jobId)) jobId = none := by
  have : (jobs.filter (fun e => e.1 != jobId)).find?
      (fun e => e.1 == jobId) = none := by
    apply List.find?_eq_none.mpr
    intro x hx
    have := (List.mem_filter.mp hx).2
    simpa using this
  simp [lookupJob, this]

/-- Filtering one key out does not change lookups of other keys. -/
theorem lookup_filter_other (jobs : List (Nat × Job)) (jobId k : Nat)
    (hk : k ≠ jobId) :
    lookupJob (jobs.filter (fun e => e.1 != jobId)) k = lookupJob jobs k := by
  induction jobs with
  | nil => rfl
  | cons e rest ih =>
    by_cases he : e.1 = jobId
    · have h1 : (e.1 != jobId) = false := by simpa using he
      have h2 : (e.1 == k) = false := by
        simp only [beq_eq_false_iff_ne]
        exact fun hEq => hk (hEq ▸ he ▸ rfl)
      simp [List.filter_cons, h1, lookupJob, List.find?_cons, h2] at ih ⊢
      exact ih
    · have h1 : (e.1 != jobId) = true := by simpa using he
      by_cases h2 : e.1 = k
      · simp [List.filter_cons, h1, lookupJob, List.find?_cons, h2, hk]
      · have h2' : (e.1 == k) = false := by simpa using h2
        simp [List.filter_cons, h1, lookupJob, List.find?_cons, h2'] at ih ⊢
        exact ih

/-- A successful lookup means the key occurs in the registry. -/
theorem lookup_mem_keys (jobs : List (Nat × Job)) (jobId : Nat) (job : Job)
    (h : lookupJob jobs jobId = some job) : jobId ∈ jobs.map Prod.fst := by
  simp only [lookupJob, Option.map_eq_some'] at h
  obtain ⟨e, he, _⟩ := h
  have hmem := List.mem_of_find?_eq_some he
  have hp := List.find?_some he
  have : e.1 = jobId := by simpa using hp
  exact this ▸ List.mem_map_of_mem Prod.fst hmem

/-- C10: `deleteJob` on an unknown id returns `false` and changes nothing;
on a running job it throws (before touching the registry); otherwise it
removes exactly the addressed job — the registry shrinks by one, the id no
longer resolves, every other id resolves as before — and emits exactly one
`job_deleted` event. The no-duplicate-keys hypothesis is the JS `Map`
invariant. -/
theorem C10_deleteJob_cases (jobs : List (Nat × Job)) (jobId : Nat)
    (hnd : (jobs.map Prod.fst).Nodup) :
    (lookupJob jobs jobId = none →
      deleteJob jobs jobId = .ok (false, jobs, []))
    ∧ (∀ job, lookupJob jobs jobId = some job → job.status = "running" →
        deleteJob jobs jobId = .error "Cannot delete a running job")
    ∧ (∀ job, lookupJob jobs jobId = some job → job.status ≠ "running" →
        deleteJob jobs jobId
          = .ok (true, jobs.filter (fun e => e.1 != jobId),
                 [.job_deleted jobId])
        ∧ (jobs.filter (fun e => e.1 != jobId)).length + 1 = jobs.length
        ∧ lookupJob (jobs.filter (fun e => e.1 != jobId)) jobId = none
        ∧ (∀ k, k ≠ jobId →
            lookupJob (jobs.filter (fun e => e.1 != jobId)) k
              = lookupJob jobs k)) := by
  refine ⟨?_, ?_, ?_⟩
  · intro h; simp [deleteJob, h]
  · intro job h hrun
    simp [deleteJob, h, hrun]
  · intro job h hrun
    have hbeq : (job.status == "running") = false := by simpa using hrun
    refine ⟨by simp [deleteJob, h, hbeq], ?_, lookup_filter_self jobs jobId,
      fun k hk => lookup_filter_other jobs jobId k hk⟩
    exact filter_ne_length_of_mem jobs jobId hnd
      (lookup_mem_keys jobs jobId job h)

/-- A concrete two-job registry for the `deleteJob` witness. -/
def wJobA : Job :=
  { id := 1, status := "running", channels := [], totalStats := ⟨0, 0, 0, 0⟩ }

def wJobB : Job :=
  { id := 2, status := "completed", channels := [],
    totalStats := ⟨0, 0, 0, 0⟩ }

/-- Witness for `C10_deleteJob_cases` on a concrete registry, exercising
all three branches. -/
theorem C10_witness :
    (deleteJob [(1, wJobA), (2, wJobB)] 3
      = .ok (false, [(1, wJobA), (2, wJobB)], []))
    ∧ (deleteJob [(1, wJobA), (2, wJobB)] 1
      = .error "Cannot delete a running job")
    ∧ (deleteJob [(1, wJobA), (2, wJobB)] 2
      = .ok (true, [(1, wJobA)], [.job_deleted 2]))
    ∧ lookupJob [(1, wJobA)] 2 = none
    ∧ lookupJob [(1, wJobA)] 1 = lookupJob [(1, wJobA), (2, wJobB)] 1 := by
  have h3 := C10_deleteJob_cases [(1, wJobA), (2, wJobB)] 3 (by decide)
  have h1 := C10_deleteJob_cases [(1, wJobA), (2, wJobB)] 1 (by decide)
  have h2 := C10_deleteJob_cases [(1, wJobA), (2, wJobB)] 2 (by decide)
  refine ⟨h3.1 rfl, h1.2.1 wJobA rfl rfl, ?_, ?_, ?_⟩
  · exact (h2.2.2 wJobB rfl (by decide)).1
  · exact (h2.2.2 wJobB rfl (by decide)).2.2.1
  · exact (h2.2.2 wJobB rfl (by decide)).2.2.2 1 (by decide)

/-- `transformPostToVectorFormat` always puts the root document first; the
`comments.length > 0` guard only skips a call that would return `[]`. -/
theorem transformPost_cons (rp : FetchedPost) (platformName : String) :
    transformPostToVectorFormat rp platformName
      = mkPostDoc rp platformName
        :: transformCommentsToVectorFormat rp.comments rp.post.id
             (if platformName ≠ "" then platformName else rp.subreddit) "" := by
  rw [transformPostToVectorFormat]
  by_cases h : rp.comments.length > 0
  · simp [h]
  · have hnil : rp.comments = [] := List.length_eq_zero.mp (by omega)
    simp [h, hnil, transformCommentsToVectorFormat]

/-- C9: for every fetched post (built by `extractPostData` from the raw
`t3` data), the root document comes first and its body is the selftext when
that is non-empty, the title otherwise; with a non-empty title the body is
never empty. -/
theorem C9_root_body_selftext_or_title
    (commentsOf : String → Option (List RawChild)) (p : RawPost)
    (subreddit platformName : String) :
    ((transformPostToVectorFormat
        (mkFetchedPost subreddit (extractPostData commentsOf p))
        platformName).head?
      = some (mkPostDoc
          (mkFetchedPost subreddit (extractPostData commentsOf p))
          platformName))
    ∧ ((mkPostDoc (mkFetchedPost subreddit (extractPostData commentsOf p))
          platformName).body
        = if p.selftext ≠ "" then p.selftext else p.title)
    ∧ (p.selftext = "" →
        (mkPostDoc (mkFetchedPost subreddit (extractPostData commentsOf p))
          platformName).body = p.title)
    ∧ (p.selftext = "" → p.title ≠ "" →
        (mkPostDoc (mkFetchedPost subreddit (extractPostData commentsOf p))
          platformName).body ≠ "") := by
  have hbody :
      (mkPostDoc (mkFetchedPost subreddit (extractPostData commentsOf p))
        platformName).body
        = if p.selftext ≠ "" then p.selftext else p.title := by
    simp [mkPostDoc, mkFetchedPost, extractPostData, extractPost]
  refine ⟨by rw [transformPost_cons]; rfl, hbody, ?_, ?_⟩
  · intro h; rw [hbody]; simp [h]
  · intro h ht; rw [hbody]; simpa [h] using ht

/-- Witness for `C9_root_body_selftext_or_title`: a link post (empty
selftext) whose root document body is its title. -/
theorem C9_witness :
    ((mkPostDoc
        (mkFetchedPost "r"
          (extractPostData (fun _ => none)
            { id := "p", title := "T", author := "u", selftext := "",
              permalink := "/r/p", created_utc := 7, score := 1,
              num_comments := 0, awards := 0, flair := "", is_self := false,
              domain := "example.com" })) "plat").body = "T")
    ∧ ((mkPostDoc
        (mkFetchedPost "r"
          (extractPostData (fun _ => none)
            { id := "p", title := "T", author := "u", selftext := "",
              permalink := "/r/p", created_utc := 7, score := 1,
              num_comments := 0, awards := 0, flair := "", is_self := false,
              domain := "example.com" })) "plat").body ≠ "") := by
  have h := C9_root_body_selftext_or_title (fun _ => none)
    { id := "p", title := "T", author := "u", selftext := "",
      permalink := "/r/p", created_utc := 7, score := 1,
      num_comments := 0, awards := 0, flair := "", is_self := false,
      domain := "example.com" } "r" "plat"
  exact ⟨h.2.2.1 rfl, h.2.2.2 rfl (by decide)⟩

/-- The comment transformation is exactly the map of the comment-document
constructor over the depth-first traversal paired with the parent ids the
code passes. -/
theorem transformComments_eq_dfs (postId sub : String) :
    ∀ (pcid : String) (cs : List Comment),
      transformCommentsToVectorFormat cs postId sub pcid
        = (dfsWithParent pcid cs).map (mkCommentDoc sub postId) := by
  intro pcid cs
  induction pcid, cs using dfsWithParent.induct with
  | case1 p =>
    rw [transformCommentsToVectorFormat, dfsWithParent]
    rfl
  | case2 p c rest ih1 ih2 =>
    rw [transformCommentsToVectorFormat, dfsWithParent]
    by_cases hr : c.replies.length > 0
    · simp [hr, ih1, ih2]
    · have hnil : c.replies = [] := List.length_eq_zero.mp (by omega)
      simp [hr, hnil, dfsWithParent, ih2]

/-- The depth-first traversal visits one node per comment in the tree,
which is what `countComments` counts. -/
theorem dfs_length_eq_countComments :
    ∀ (pcid : String) (cs : List Comment),
      (dfsWithParent pcid cs).length = countComments cs := by
  intro pcid cs
  induction pcid, cs using dfsWithParent.induct with
  | case1 p => rw [dfsWithParent, countComments]; rfl
  | case2 p c rest ih1 ih2 =>
    rw [dfsWithParent, countComments]
    by_cases hr : c.replies.length > 0
    · simp only [hr, if_true, List.length_cons, List.length_append]
      omega
    · have hnil : c.replies = [] := List.length_eq_zero.mp (by omega)
      simp only [hr, if_false, List.length_cons, List.length_append, hnil,
        dfsWithParent]
      simp
      omega

/-- A comment forest used by the C5 counterexample: a top-level comment
whose id is the empty string, holding one nested reply `"c"`. -/
def emptyIdComment : Comment :=
  { id := "", author := "u1", body := "b1", score := 0, created_utc := 1,
    depth := 0, permalink := "/r/x/0", parent_id := "t3_p",
    replies := [{ id := "c", author := "u2", body := "b2", score := 0,
                  created_utc := 2, depth := 1, permalink := "/r/x/c",
                  parent_id := "t1_", replies := [] }] }

def emptyIdFetchedPost : FetchedPost :=
  { id := "reddit_post_p", source := "reddit", subreddit := "r",
    post := { id := "p", title := "T", author := "u", content := "B",
              url := "https://reddit.com/r/p", created_utc := 0, score := 0,
              num_comments := 2, awards := 0, flair := "", is_self := true,
              domain := "self.r" },
    comments := [emptyIdComment] }

/-- C5, counterexample: the reply `"c"` is nested under another reply (the
top-level comment with id `""`), yet its document id is `"c"`, not
`"p_c"`: the code tests the PARENT id for truthiness, so a falsy (empty)
parent id leaves the nested reply's id unqualified. Count, order and the
root-first shape are unaffected. -/
theorem C5_nested_reply_id_unqualified :
    ((transformPostToVectorFormat emptyIdFetchedPost "plat").map (·.id)
      = ["p", "", "c"])
    ∧ ("c" : String) ≠ "p" ++ "_" ++ "c" := by
  constructor
  · rw [transformPost_cons]
    simp [transformCommentsToVectorFormat, mkCommentDoc, mkPostDoc,
      commentDocId, emptyIdFetchedPost, emptyIdComment]
  · decide

/-- C5, amended: `transformPostToVectorFormat` emits exactly
`1 + countComments` documents — the root first with `isComment = false` and
id `item.id`, then one document per reply in depth-first order of the input
tree, each with `isComment = true`; a reply's document id is
`${rootItemId}_${replyId}` when the id of its parent reply is non-empty,
and `${replyId}` when the reply sits directly under the root (or under a
parent whose id is the empty string, which the code's truthiness test
treats the same way). -/
theorem C5_amended_flatten_shape (rp : FetchedPost) (platformName : String) :
    ((transformPostToVectorFormat rp platformName).length
      = 1 + countComments rp.comments)
    ∧ (transformPostToVectorFormat rp platformName
      = mkPostDoc rp platformName
        :: (dfsWithParent "" rp.comments).map
             (mkCommentDoc
               (if platformName ≠ "" then platformName else rp.subreddit)
               rp.post.id))
    ∧ ((mkPostDoc rp platformName).isComment = false)
    ∧ ((mkPostDoc rp platformName).id = rp.post.id)
    ∧ (∀ q ∈ dfsWithParent "" rp.comments,
        ((mkCommentDoc
            (if platformName ≠ "" then platformName else rp.subreddit)
            rp.post.id q).isComment = true)
        ∧ ((mkCommentDoc
            (if platformName ≠ "" then platformName else rp.subreddit)
            rp.post.id q).id
          = if q.2 ≠ "" then rp.post.id ++ "_" ++ q.1.id else q.1.id)) := by
  have hcons := transformPost_cons rp platformName
  have hdfs := transformComments_eq_dfs rp.post.id
    (if platformName ≠ "" then platformName else rp.subreddit) "" rp.comments
  refine ⟨?_, ?_, rfl, rfl, ?_⟩
  · rw [hcons, hdfs]
    simp [dfs_length_eq_countComments, Nat.add_comm]
  · rw [hcons, hdfs]
  · intro q _
    exact ⟨rfl, rfl⟩

/-- Witness for `C5_amended_flatten_shape` at a concrete two-comment tree
(also discharging the membership hypothesis of the last conjunct). -/
theorem C5_amended_witness :
    ((transformPostToVectorFormat emptyIdFetchedPost "plat").length
      = 1 + countComments emptyIdFetchedPost.comments)
    ∧ ((mkCommentDoc "plat" "p" (emptyIdComment, "")).isComment = true) := by
  have h := C5_amended_flatten_shape emptyIdFetchedPost "plat"
  refine ⟨h.1, ?_⟩
  have hm : (emptyIdComment, "") ∈ dfsWithParent "" emptyIdFetchedPost.comments := by
    rw [show emptyIdFetchedPost.comments = [emptyIdComment] from rfl,
      dfsWithParent]
    exact List.mem_cons_self _ _
  have h5 := h.2.2.2.2 (emptyIdComment, "") hm
  simpa [emptyIdFetchedPost] using h5.1

/-- Two distinct top-level comments (different authors and bodies) that
share the id `"a"`. -/
def dupIdFetchedPost : FetchedPost :=
  { id := "reddit_post_p", source := "reddit", subreddit := "r",
    post := { id := "p", title := "T", author := "u", content := "B",
              url := "https://reddit.com/r/p", created_utc := 0, score := 0,
              num_comments := 2, awards := 0, flair := "", is_self := true,
              domain := "self.r" },
    comments :=
      [{ id := "a", author := "u1", body := "b1", score := 0,
         created_utc := 1, depth := 0, permalink := "/r/x/1",
         parent_id := "t3_p", replies := [] },
       { id := "a", author := "u2", body := "b2", score := 0,
         created_utc := 2, depth := 0, permalink := "/r/x/2",
         parent_id := "t3_p", replies := [] }] }

/-- C6, counterexample: two distinct reply nodes carrying the same raw id
produce the same document id — the id sequence `["p", "a", "a"]` has a
duplicate, refuting injectivity over arbitrary trees. -/
theorem C6_duplicate_ids_collide :
    ((transformPostToVectorFormat dupIdFetchedPost "plat").map (·.id)
      = ["p", "a", "a"])
    ∧ ¬ ((transformPostToVectorFormat dupIdFetchedPost "plat").map
          (·.id)).Nodup := by
  have h : (transformPostToVectorFormat dupIdFetchedPost "plat").map (·.id)
      = ["p", "a", "a"] := by
    rw [transformPost_cons]
    simp [transformCommentsToVectorFormat, mkCommentDoc, mkPostDoc,
      commentDocId, dupIdFetchedPost]
  exact ⟨h, by rw [h]; decide⟩

/-- The qualified id is strictly longer than the root id. -/
theorem prefixed_ne_postId (postId c : String) :
    postId ++ "_" ++ c ≠ postId := by
  intro h
  have := congrArg String.length h
  rw [String.length_append, String.length_append] at this
  have h1 : ("_" : String).length = 1 := rfl
  omega

/-- On underscore-free comment ids, the document-id scheme determines the
comment id. -/
theorem commentDocId_inj (postId p1 p2 c1 c2 : String)
    (h1 : ¬ '_' ∈ c1.data) (h2 : ¬ '_' ∈ c2.data)
    (heq : commentDocId postId p1 c1 = commentDocId postId p2 c2) :
    c1 = c2 := by
  have hus : '_' ∈ (postId ++ "_" ++ c2).data := by
    rw [String.data_append, String.data_append]
    exact List.mem_append_left _ (List.mem_append_right _ (by decide))
  have hus1 : '_' ∈ (postId ++ "_" ++ c1).data := by
    rw [String.data_append, String.data_append]
    exact List.mem_append_left _ (List.mem_append_right _ (by decide))
  by_cases hp1 : p1 = ""
  · by_cases hp2 : p2 = ""
    · simpa [commentDocId, hp1, hp2] using heq
    · rw [commentDocId, commentDocId, if_neg (by simp [hp1]),
        if_pos (by simp [hp2])] at heq
      exact absurd (heq ▸ hus) h1
  · by_cases hp2 : p2 = ""
    · rw [commentDocId, commentDocId, if_pos (by simp [hp1]),
        if_neg (by simp [hp2])] at heq
      exact absurd (heq.symm ▸ hus1) h2
    · rw [commentDocId, commentDocId, if_pos (by simp [hp1]),
        if_pos (by simp [hp2])] at heq
      have hdata := congrArg String.data heq
      rw [String.data_append, String.data_append, String.data_append,
        String.data_append] at hdata
      have hdata2 : postId.data ++ (("_" : String).data ++ c1.data)
          = postId.data ++ (("_" : String).data ++ c2.data) := by
        simpa [List.append_assoc] using hdata
      exact String.ext
        (List.append_cancel_left (List.append_cancel_left hdata2))

/-- The raw-id projection of the depth-first traversal is `emittedIds`. -/
theorem dfs_map_fst_id_eq_emittedIds :
    ∀ (pcid : String) (cs : List Comment),
      (dfsWithParent pcid cs).map (fun q => q.1.id) = emittedIds cs := by
  intro pcid cs
  induction pcid, cs using dfsWithParent.induct with
  | case1 p => rw [dfsWithParent, emittedIds]; rfl
  | case2 p c rest ih1 ih2 =>
    rw [dfsWithParent, emittedIds]
    simp [ih1, ih2]

/-- C6, amended: provided the root id and all reply ids in the tree are
pairwise distinct and no reply id contains an underscore, the document ids
are injective — no two documents of the run share an id; and the
transformation is deterministic: the id sequence of a rerun on the same
tree is identical. -/
theorem C6_amended_ids_injective (rp : FetchedPost) (platformName : String)
    (hnd : (rp.post.id :: emittedIds rp.comments).Nodup)
    (hus : ∀ i ∈ emittedIds rp.comments, ¬ '_' ∈ i.data) :
    ((transformPostToVectorFormat rp platformName).map (·.id)).Nodup
    ∧ (transformPostToVectorFormat rp platformName).map (·.id)
      = (transformPostToVectorFormat rp platformName).map (·.id) := by
  refine ⟨?_, rfl⟩
  have hids : (transformPostToVectorFormat rp platformName).map (·.id)
      = rp.post.id
        :: (dfsWithParent "" rp.comments).map
             (fun q => commentDocId rp.post.id q.2 q.1.id) := by
    rw [transformPost_cons, transformComments_eq_dfs]
    simp [mkPostDoc, mkCommentDoc, Function.comp]
  rw [hids]
  have hem := dfs_map_fst_id_eq_emittedIds "" rp.comments
  have hroot : rp.post.id ∉ emittedIds rp.comments :=
    (List.nodup_cons.mp hnd).1
  have hnd2 : (emittedIds rp.comments).Nodup := (List.nodup_cons.mp hnd).2
  have hnd2' : ((dfsWithParent "" rp.comments).map
      (fun q => q.1.id)).Nodup := by rw [hem]; exact hnd2
  have hmemid : ∀ q ∈ dfsWithParent "" rp.comments,
      q.1.id ∈ emittedIds rp.comments := by
    intro q hq
    rw [← hem]
    exact List.mem_map_of_mem _ hq
  refine List.nodup_cons.mpr ⟨?_, ?_⟩
  · intro hmem
    rcases List.mem_map.mp hmem with ⟨q, hq, hid⟩
    by_cases hp : q.2 = ""
    · rw [commentDocId, if_neg (by simp [hp])] at hid
      exact hroot (hid ▸ hmemid q hq)
    · rw [commentDocId, if_pos (by simp [hp])] at hid
      exact prefixed_ne_postId rp.post.id q.1.id hid
  · apply List.Nodup.map_on
    · intro x hx y hy hf
      exact List.inj_on_of_nodup_map hnd2' hx hy
        (commentDocId_inj rp.post.id x.2 y.2 x.1.id y.1.id
          (hus _ (hmemid x hx)) (hus _ (hmemid y hy)) hf)
    · exact List.Nodup.of_map _ hnd2'

/-- A tree with distinct, underscore-free ids: root `"p"`, a top-level
comment `"a"` holding a nested reply `"b"`, and a top-level comment
`"c"`. -/
def distinctIdFetchedPost : FetchedPost :=
  { id := "reddit_post_p", source := "reddit", subreddit := "r",
    post := { id := "p", title := "T", author := "u", content := "B",
              url := "https://reddit.com/r/p", created_utc := 0, score := 0,
              num_comments := 3, awards := 0, flair := "", is_self := true,
              domain := "self.r" },
    comments :=
      [{ id := "a", author := "u1", body := "b1", score := 0,
         created_utc := 1, depth := 0, permalink := "/r/x/a",
         parent_id := "t3_p",
         replies := [{ id := "b", author := "u2", body := "b2", score := 0,
                       created_utc := 2, depth := 1, permalink := "/r/x/b",
                       parent_id := "t1_a", replies := [] }] },
       { id := "c", author := "u3", body := "b3", score := 0,
         created_utc := 3, depth := 0, permalink := "/r/x/c",
         parent_id := "t3_p", replies := [] }] }

/-- Witness for `C6_amended_ids_injective` on `distinctIdFetchedPost`. -/
theorem C6_amended_witness :
    ((transformPostToVectorFormat distinctIdFetchedPost "plat").map
      (·.id)).Nodup := by
  have hemit : emittedIds distinctIdFetchedPost.comments = ["a", "b", "c"] := by
    simp [distinctIdFetchedPost, emittedIds]
  refine (C6_amended_ids_injective distinctIdFetchedPost "plat" ?_ ?_).1
  · rw [show distinctIdFetchedPost.post.id = "p" from rfl, hemit]
    decide
  · intro i hi
    rw [hemit] at hi
    simp only [List.mem_cons, List.not_mem_nil, or_false] at hi
    rcases hi with rfl | rfl | rfl <;> decide

/-- Splitting the page loop: once the cutoff (or the test-mode cap) sets
the stop flag, the remaining children are never looked at. -/
theorem processPageChildren_append (commentsOf : String → Option (List RawChild))
    (subreddit : String) (cutoffTime : Nat) (testMode : Bool)
    (l1 l2 : List PostChild) :
    ∀ acc : List FetchedPost,
      processPageChildren commentsOf subreddit cutoffTime testMode (l1 ++ l2)
          acc
        = match processPageChildren commentsOf subreddit cutoffTime testMode
              l1 acc with
          | (a, true) => (a, true)
          | (a, false) =>
            processPageChildren commentsOf subreddit cutoffTime testMode l2
              a := by
  induction l1 with
  | nil => intro acc; simp [processPageChildren]
  | cons child rest ih =>
    intro acc
    cases child with
    | other =>
      simp only [List.cons_append, processPageChildren]
      exact ih acc
    | t3 p =>
      simp only [List.cons_append, processPageChildren]
      split_ifs with hcut hdel hcap
      · rfl
      · exact ih acc
      · rfl
      · exact ih _

/-- Every post the page loop appends passed the cutoff test. -/
theorem processPageChildren_created_ge
    (commentsOf : String → Option (List RawChild)) (subreddit : String)
    (cutoffTime : Nat) (testMode : Bool) :
    ∀ (children : List PostChild) (acc : List FetchedPost),
      (∀ fp ∈ acc, cutoffTime ≤ fp.post.created_utc) →
      ∀ fp ∈ (processPageChildren commentsOf subreddit cutoffTime testMode
          children acc).1,
        cutoffTime ≤ fp.post.created_utc := by
  intro children
  induction children with
  | nil => intro acc hacc; simpa [processPageChildren] using hacc
  | cons child rest ih =>
    intro acc hacc
    cases child with
    | other => simpa [processPageChildren] using ih acc hacc
    | t3 p =>
      simp only [processPageChildren]
      split_ifs with hcut hdel hcap
      · simpa using hacc
      · exact ih acc hacc
      all_goals {
        have hacc' : ∀ fp ∈ acc ++ [mkFetchedPost subreddit
            (extractPostData commentsOf p)],
            cutoffTime ≤ fp.post.created_utc := by
          intro fp hfp
          rcases List.mem_append.mp hfp with h | h
          · exact hacc fp h
          · have : fp = mkFetchedPost subreddit
                (extractPostData commentsOf p) := by simpa using h
            subst this
            simpa [mkFetchedPost, extractPostData, extractPost] using
              Nat.le_of_not_lt hcut
        first
        | simpa using hacc'
        | exact ih _ hacc' }

/-- The pagination loop preserves the cutoff bound on everything it
emits. -/
theorem fetchPostsGo_created_ge
    (commentsOf : String → Option (List RawChild)) (subreddit : String)
    (cutoffTime : Nat) (testMode : Bool) :
    ∀ (pages : List Page) (acc : List FetchedPost),
      (∀ fp ∈ acc, cutoffTime ≤ fp.post.created_utc) →
      ∀ fp ∈ fetchPostsGo commentsOf subreddit cutoffTime testMode pages acc,
        cutoffTime ≤ fp.post.created_utc := by
  intro pages
  induction pages with
  | nil => intro acc hacc; simpa [fetchPostsGo] using hacc
  | cons page morePages ih =>
    intro acc hacc
    rw [fetchPostsGo]
    by_cases hcap : (testMode && (5 ≤ acc.length : Bool)) = true
    · simpa [hcap] using hacc
    · by_cases hempty : page.children.isEmpty = true
      · simpa [hcap, hempty] using hacc
      · simp only [hcap, hempty, if_false, Bool.false_eq_true]
        have hproc := processPageChildren_created_ge commentsOf subreddit
          cutoffTime testMode page.children acc hacc
        cases hsplit : processPageChildren commentsOf subreddit cutoffTime
            testMode page.children acc with
        | mk posts' stopped =>
          rw [hsplit] at hproc
          cases stopped with
          | true => simpa using hproc
          | false =>
            cases haft : page.after with
            | none => simpa using hproc
            | some tok => simpa using ih posts' hproc

/-- C7: the fetch window never emits a post older than the cutoff, and the
first below-cutoff post encountered stops everything — the rest of its
page and all further pages contribute nothing. -/
theorem C7_cutoff_bounds_fetch
    (commentsOf : String → Option (List RawChild)) (subreddit : String)
    (cutoffTime : Nat) (testMode : Bool) :
    (∀ (pages : List Page) (fp : FetchedPost),
      fp ∈ fetchPosts commentsOf subreddit cutoffTime testMode pages →
      cutoffTime ≤ fp.post.created_utc)
    ∧ (∀ (pre : List PostChild) (p : RawPost) (suffix : List PostChild)
         (aft : Option String) (morePages : List Page)
         (acc : List FetchedPost),
        p.created_utc < cutoffTime →
        fetchPostsGo commentsOf subreddit cutoffTime testMode
            ({ children := pre ++ PostChild.t3 p :: suffix, after := aft }
              :: morePages) acc
          = fetchPostsGo commentsOf subreddit cutoffTime testMode
              [{ children := pre ++ [PostChild.t3 p], after := aft }] acc) := by
  constructor
  · intro pages fp hfp
    exact fetchPostsGo_created_ge commentsOf subreddit cutoffTime testMode
      pages [] (by simp) fp hfp
  · intro pre p suffix aft morePages acc hcut
    have hne1 : (pre ++ PostChild.t3 p :: suffix).isEmpty = false := by
      cases pre <;> rfl
    have hne2 : (pre ++ [PostChild.t3 p]).isEmpty = false := by
      cases pre <;> rfl
    rw [fetchPostsGo, fetchPostsGo]
    dsimp only
    rw [hne1, hne2, processPageChildren_append, processPageChildren_append]
    rcases hpre : processPageChildren commentsOf subreddit cutoffTime
        testMode pre acc with ⟨a, stopped⟩
    cases stopped with
    | true => simp
    | false => simp [processPageChildren, hcut]

/-- A post created at time 15 (inside a cutoff-10 window). -/
def wRawHigh : RawPost :=
  { id := "h", title := "H", author := "u", selftext := "s",
    permalink := "/r/h", created_utc := 15, score := 1, num_comments := 0,
    awards := 0, flair := "", is_self := true, domain := "self.r" }

/-- A post created at time 5 (older than a cutoff of 10). -/
def wRawLow : RawPost :=
  { id := "l", title := "L", author := "u", selftext := "s",
    permalink := "/r/l", created_utc := 5, score := 1, num_comments := 0,
    awards := 0, flair := "", is_self := true, domain := "self.r" }

/-- Witness for `C7_cutoff_bounds_fetch`: the emitted post of a one-page
feed satisfies the cutoff, and a page whose first post is below the cutoff
makes the rest of the page and all later pages irrelevant. -/
theorem C7_witness :
    (10 ≤ (mkFetchedPost "r"
        (extractPostData (fun _ => none) wRawHigh)).post.created_utc)
    ∧ (fetchPostsGo (fun _ => none) "r" 10 false
          ({ children := [] ++ PostChild.t3 wRawLow
               :: [PostChild.t3 wRawHigh],
             after := some "t" }
            :: [{ children := [PostChild.t3 wRawHigh], after := none }]) []
        = fetchPostsGo (fun _ => none) "r" 10 false
            [{ children := [] ++ [PostChild.t3 wRawLow],
               after := some "t" }] []) := by
  constructor
  · refine (C7_cutoff_bounds_fetch (fun _ => none) "r" 10 false).1
      [{ children := [PostChild.t3 wRawHigh], after := none }]
      (mkFetchedPost "r" (extractPostData (fun _ => none) wRawHigh)) ?_
    rw [show fetchPosts (fun _ => none) "r" 10 false
        [{ children := [PostChild.t3 wRawHigh], after := none }]
      = [mkFetchedPost "r" (extractPostData (fun _ => none) wRawHigh)]
      from rfl]
    exact List.mem_singleton.mpr rfl
  · exact (C7_cutoff_bounds_fetch (fun _ => none) "r" 10 false).2
      [] wRawLow [PostChild.t3 wRawHigh] (some "t")
      [{ children := [PostChild.t3 wRawHigh], after := none }] []
      (by decide)

end RedditWorker
